import Mathlib

/-!
Shallow embedding of the web3-react core state store
(`createWeb3ReactStoreAndActions` and its helpers).

The store holds one connector's connection state together with the
`nullifier` generation counter closed over by the actions.  Each action
of the source is translated to a pure function on a `Store` value:

* `startActivation` returns the updated store paired with the cached
  nullifier value captured by the returned cancel closure;
* `cancelActivation cached` is the body of that closure;
* `update` returns the store paired with either the new state snapshot
  or the thrown validation error — the source throws before any
  mutation, so the error branch carries the store through unchanged;
* `resetState` and `getState` are direct.

Account validation delegates to `getAddress` from `@ethersproject/address`,
an external library: it is modelled as an explicit parameter
`getAddress : String → Option String` (`none` = the library throws,
`some a` = the checksum-normalized rendering of the address).
Chain ids are modelled as rationals so that the `Number.isInteger`
test of `validateChainId` is expressible (denominator = 1).
-/

namespace Web3React

/-- `Web3ReactState`: one connector's connection state.  `Option` models
the `T | undefined` fields of the TypeScript interface. -/
structure Web3ReactState where
  chainId : Option ℚ
  accounts : Option (List String)
  accountIndex : Option Nat
  activating : Bool
  addingChain : Option Nat
  switchingChain : Option Nat
  watchingAsset : Option Nat
deriving DecidableEq, Repr

/-- `Web3ReactStateUpdate`: the patch passed to `update`.  For
`accountIndex`, `addingChain`, `switchingChain` and `watchingAsset` the
source distinguishes (via `Object.getOwnPropertyNames`) a key that is
absent from one present with value `undefined`, so those fields are
doubly optional: `none` = key absent, `some none` = key present and
explicitly `undefined`, `some (some v)` = key present with value `v`.
For `chainId` and `accounts` the source uses `!== undefined` and `??`,
which make an absent key and an explicitly-`undefined` one
indistinguishable, so a single `Option` suffices. -/
structure Web3ReactStateUpdate where
  chainId : Option ℚ
  accounts : Option (List String)
  accountIndex : Option (Option Nat)
  addingChain : Option (Option Nat)
  switchingChain : Option (Option Nat)
  watchingAsset : Option (Option Nat)
deriving DecidableEq, Repr

/-- A patch with every key absent. -/
def emptyUpdate : Web3ReactStateUpdate :=
  ⟨none, none, none, none, none, none⟩

/-- `MAX_SAFE_CHAIN_ID = floor((2^53 - 39) / 2) = 4503599627370476`. -/
def MAX_SAFE_CHAIN_ID : ℚ := 4503599627370476

/-- `validateChainId`: throws `Invalid chainId` unless the value is an
integer (denominator 1), positive, and at most `MAX_SAFE_CHAIN_ID`. -/
def validateChainId (chainId : ℚ) : Except String Unit :=
  if ¬(chainId.den = 1) ∨ chainId ≤ 0 ∨ MAX_SAFE_CHAIN_ID < chainId then
    Except.error "Invalid chainId"
  else
    Except.ok ()

/-- `validateAccount` simply delegates to the external `getAddress`. -/
def validateAccount (getAddress : String → Option String) (account : String) :
    Option String :=
  getAddress account

/-- The validation loop of `update` over `stateUpdate.accounts`: rewrite
each entry to its checksummed form, failing at the first invalid one. -/
def validateAccounts (getAddress : String → Option String) :
    List String → Option (List String)
  | [] => some []
  | a :: rest =>
    match validateAccount getAddress a with
    | none => none
    | some a' => (validateAccounts getAddress rest).map (fun l => a' :: l)

/-- `DEFAULT_STATE`: everything unset, `activating = false`. -/
def DEFAULT_STATE : Web3ReactState :=
  ⟨none, none, none, false, none, none, none⟩

/-- The store created by `createWeb3ReactStoreAndActions`: the zustand
state cell together with the `nullifier` counter the actions close
over. -/
structure Store where
  nullifier : Nat
  state : Web3ReactState
deriving DecidableEq, Repr

/-- The freshly created store. -/
def initialStore : Store := ⟨0, DEFAULT_STATE⟩

/-- JS truthiness of the merged `chainId` (`undefined`, `0` and `NaN`
are falsy; `NaN` is unrepresentable in ℚ). -/
def truthyChainId : Option ℚ → Bool
  | none => false
  | some c => decide (c ≠ 0)

/-- JS truthiness of the merged `accounts`: an array, even an empty
one, is truthy; only `undefined` is falsy. -/
def truthyAccounts : Option (List String) → Bool
  | none => false
  | some _ => true

/-- `startActivation`: bump the nullifier, cache it, and replace the
whole state with the default state except `activating = true`.  Returns
the new store and the cached nullifier captured by the cancel
closure. -/
def startActivation (s : Store) : Store × Nat :=
  let nullifierCached := s.nullifier + 1
  (⟨nullifierCached, { DEFAULT_STATE with activating := true }⟩, nullifierCached)

/-- The closure returned by `startActivation`: if the nullifier still
equals the cached value, merge `{activating: false, addingChain:
undefined, switchingChain: undefined}` into the state; either way
return the current snapshot. -/
def cancelActivation (nullifierCached : Nat) (s : Store) :
    Store × Web3ReactState :=
  let s' :=
    if s.nullifier = nullifierCached then
      ⟨s.nullifier,
        { s.state with
            activating := false, addingChain := none, switchingChain := none }⟩
    else s
  (s', s'.state)

/-- Lines 67-70 of `update`: validate `chainId` statically unless the
key is absent/undefined or `skipValidation` is set. -/
def checkChainId (stateUpdate : Web3ReactStateUpdate) (skipValidation : Bool) :
    Except String Unit :=
  match stateUpdate.chainId with
  | none => Except.ok ()
  | some c => if skipValidation then Except.ok () else validateChainId c

/-- Lines 72-77 of `update`: validate every entry of
`stateUpdate.accounts`, rewriting each to its checksummed form; the
outer `none` is the thrown `getAddress` error, the inner `Option` is
`accounts` itself being absent/undefined. -/
def checkAccounts (getAddress : String → Option String)
    (stateUpdate : Web3ReactStateUpdate) (skipValidation : Bool) :
    Option (Option (List String)) :=
  match stateUpdate.accounts with
  | none => some none
  | some accs =>
    if skipValidation then some (some accs)
    else (validateAccounts getAddress accs).map some

/-- The `store.setState` updater of `update` (lines 81-117):
functionally derive the next state from the existing one.
`checkedAccounts` is `stateUpdate.accounts` after the validation loop
rewrote its entries in place. -/
def applyUpdate (stateUpdate : Web3ReactStateUpdate)
    (checkedAccounts : Option (List String))
    (existingState : Web3ReactState) : Web3ReactState :=
  let chainId := stateUpdate.chainId.orElse (fun _ => existingState.chainId)
  let accounts := checkedAccounts.orElse (fun _ => existingState.accounts)
  let activating :=
    if existingState.activating && truthyChainId chainId &&
        truthyAccounts accounts then
      false
    else existingState.activating
  let accountIndex :=
    match stateUpdate.accountIndex with
    | some v => v
    | none => existingState.accountIndex
  let addingChain :=
    match stateUpdate.addingChain with
    | some v => v
    | none => existingState.addingChain
  let switchingChain :=
    match stateUpdate.switchingChain with
    | some v => v
    | none => existingState.switchingChain
  let watchingAsset :=
    match stateUpdate.watchingAsset with
    | some v => v
    | none => existingState.watchingAsset
  ⟨chainId, accounts, accountIndex, activating, addingChain,
    switchingChain, watchingAsset⟩

/-- `update`: validate `chainId` and `accounts` of the patch (unless
`skipValidation`), then bump the nullifier and functionally merge the
patch into the state.  The source throws before `nullifier++` and
before `store.setState`, so the error branches return the store
unchanged together with the error. -/
def update (getAddress : String → Option String)
    (stateUpdate : Web3ReactStateUpdate) (skipValidation : Bool)
    (s : Store) : Store × Except String Web3ReactState :=
  match checkChainId stateUpdate skipValidation with
  | Except.error e => (s, Except.error e)
  | Except.ok _ =>
    match checkAccounts getAddress stateUpdate skipValidation with
    | none => (s, Except.error "Invalid account")
    | some checkedAccounts =>
      let newState := applyUpdate stateUpdate checkedAccounts s.state
      (⟨s.nullifier + 1, newState⟩, Except.ok newState)

/-- `resetState`: bump the nullifier and replace the state with
`DEFAULT_STATE`; returns the default state. -/
def resetState (s : Store) : Store × Web3ReactState :=
  (⟨s.nullifier + 1, DEFAULT_STATE⟩, DEFAULT_STATE)

/-- `getState`: pure read of the snapshot. -/
def getState (s : Store) : Web3ReactState := s.state

/-- One call against the action engine, as a relation on stores (used
to reason about execution histories). -/
inductive Step (getAddress : String → Option String) : Store → Store → Prop
  | start (s : Store) : Step getAddress s (startActivation s).1
  | report (s : Store) (u : Web3ReactStateUpdate) (skip : Bool) :
      Step getAddress s (update getAddress u skip s).1
  | reset (s : Store) : Step getAddress s (resetState s).1
  | cancel (s : Store) (c : Nat) :
      Step getAddress s (cancelActivation c s).1

/-- A single generation-advancing operation as named by the spec:
another `startActivation`, a successful `update`, or `resetState`,
together with the store it produces. -/
def AdvancingResult (getAddress : String → Option String)
    (s t : Store) : Prop :=
  t = (startActivation s).1 ∨
  (∃ u skip st', update getAddress u skip s = (t, Except.ok st')) ∨
  t = (resetState s).1

/- ### Supporting lemmas -/

theorem validateAccounts_forall₂ (getAddress : String → Option String)
    (l l' : List String) (h : validateAccounts getAddress l = some l') :
    List.Forall₂ (fun a a' => getAddress a = some a') l l' := by
  induction l generalizing l' with
  | nil =>
    simp [validateAccounts] at h
    subst h; exact List.Forall₂.nil
  | cons a rest ih =>
    simp only [validateAccounts, validateAccount] at h
    cases hga : getAddress a with
    | none => simp [hga] at h
    | some a' =>
      simp only [hga] at h
      cases hrest : validateAccounts getAddress rest with
      | none => simp [hrest] at h
      | some l'' =>
        rw [hrest, Option.map_some'] at h
        cases h
        exact List.Forall₂.cons hga (ih _ hrest)

theorem validateAccounts_none (getAddress : String → Option String)
    (l : List String) (a : String) (ha : a ∈ l) (hga : getAddress a = none) :
    validateAccounts getAddress l = none := by
  induction l with
  | nil => cases ha
  | cons b rest ih =>
    rcases List.mem_cons.mp ha with rfl | hmem
    · simp [validateAccounts, validateAccount, hga]
    · simp only [validateAccounts, validateAccount]
      cases hgb : getAddress b with
      | none => rfl
      | some b' => simp [ih hmem]

theorem update_error_fst (getAddress : String → Option String)
    (u : Web3ReactStateUpdate) (skip : Bool) (s : Store) (e : String)
    (h : (update getAddress u skip s).2 = Except.error e) :
    (update getAddress u skip s).1 = s := by
  unfold update at h ⊢
  cases h1 : checkChainId u skip with
  | error e' => simp [h1]
  | ok _ =>
    cases h2 : checkAccounts getAddress u skip with
    | none => simp [h1, h2]
    | some ca => simp [h1, h2] at h

theorem update_ok_spec (getAddress : String → Option String)
    (u : Web3ReactStateUpdate) (skip : Bool) (s : Store)
    (st' : Web3ReactState)
    (h : (update getAddress u skip s).2 = Except.ok st') :
    (update getAddress u skip s).1 = ⟨s.nullifier + 1, st'⟩ ∧
    ∃ ca, checkAccounts getAddress u skip = some ca ∧
      st' = applyUpdate u ca s.state := by
  unfold update at h ⊢
  cases h1 : checkChainId u skip with
  | error e' => simp [h1] at h
  | ok _ =>
    cases h2 : checkAccounts getAddress u skip with
    | none => simp [h1, h2] at h
    | some ca =>
      simp only [h1, h2] at h ⊢
      cases h
      exact ⟨rfl, ca, rfl, rfl⟩

theorem update_fst_nullifier (getAddress : String → Option String)
    (u : Web3ReactStateUpdate) (skip : Bool) (s : Store) :
    s.nullifier ≤ (update getAddress u skip s).1.nullifier := by
  cases h : (update getAddress u skip s).2 with
  | error e => rw [update_error_fst getAddress u skip s e h]
  | ok st' => rw [(update_ok_spec getAddress u skip s st' h).1]; exact Nat.le_succ _

theorem cancel_fst_nullifier (c : Nat) (s : Store) :
    (cancelActivation c s).1.nullifier = s.nullifier := by
  unfold cancelActivation
  by_cases h : s.nullifier = c <;> simp [h]

theorem step_nullifier_mono (getAddress : String → Option String)
    (s t : Store) (h : Step getAddress s t) :
    s.nullifier ≤ t.nullifier := by
  cases h with
  | start => exact Nat.le_succ _
  | report u skip => exact update_fst_nullifier getAddress u skip s
  | reset => exact Nat.le_succ _
  | cancel c => rw [cancel_fst_nullifier]

theorem reaches_nullifier_mono (getAddress : String → Option String)
    (s t : Store) (h : Relation.ReflTransGen (Step getAddress) s t) :
    s.nullifier ≤ t.nullifier := by
  induction h with
  | refl => exact Nat.le_refl _
  | tail _ hstep ih => exact Nat.le_trans ih (step_nullifier_mono _ _ _ hstep)

theorem cancel_stale_noop (c : Nat) (s : Store) (h : s.nullifier ≠ c) :
    cancelActivation c s = (s, s.state) := by
  unfold cancelActivation
  simp [h]

theorem truthyAccounts_isSome (o : Option (List String)) :
    truthyAccounts o = o.isSome := by
  cases o <;> rfl

theorem applyUpdate_chainId (u : Web3ReactStateUpdate)
    (ca : Option (List String)) (st : Web3ReactState) :
    (applyUpdate u ca st).chainId
      = u.chainId.orElse (fun _ => st.chainId) := rfl

theorem applyUpdate_accounts (u : Web3ReactStateUpdate)
    (ca : Option (List String)) (st : Web3ReactState) :
    (applyUpdate u ca st).accounts
      = ca.orElse (fun _ => st.accounts) := rfl

theorem applyUpdate_activating (u : Web3ReactStateUpdate)
    (ca : Option (List String)) (st : Web3ReactState) :
    (applyUpdate u ca st).activating
      = if st.activating && truthyChainId ((applyUpdate u ca st).chainId) &&
            truthyAccounts ((applyUpdate u ca st).accounts) then
          false
        else st.activating := rfl

/-- A sample state with every field populated, used to instantiate
theorems at concrete inputs. -/
def sampleState : Web3ReactState :=
  ⟨some 5, some ["0xA"], some 0, true, some 2, some 3, some 4⟩

/- ### Claims -/

/-- C5: for every prior state, `startActivation` replaces the entire
state with the default state except `activating = true`: afterwards
`chainId`, `accounts`, `accountIndex`, `addingChain`, `switchingChain`
and `watchingAsset` are all unset and `activating` is true, regardless
of their prior values. -/
theorem C5_beginActivation_resets_to_default (s : Store) :
    (startActivation s).1.state = { DEFAULT_STATE with activating := true } ∧
    (startActivation s).1.state.chainId = none ∧
    (startActivation s).1.state.accounts = none ∧
    (startActivation s).1.state.accountIndex = none ∧
    (startActivation s).1.state.addingChain = none ∧
    (startActivation s).1.state.switchingChain = none ∧
    (startActivation s).1.state.watchingAsset = none ∧
    (startActivation s).1.state.activating = true := by
  exact ⟨rfl, rfl, rfl, rfl, rfl, rfl, rfl, rfl⟩

/-- C7: when the cancel closure runs with the nullifier still equal to
its captured value, it sets `activating` to false and clears
`addingChain` and `switchingChain` only, leaving `chainId`, `accounts`,
`accountIndex` and `watchingAsset` exactly as they were. -/
theorem C7_cancel_effective_frame (c : Nat) (s : Store)
    (h : s.nullifier = c) :
    (cancelActivation c s).1.state.activating = false ∧
    (cancelActivation c s).1.state.addingChain = none ∧
    (cancelActivation c s).1.state.switchingChain = none ∧
    (cancelActivation c s).1.state.chainId = s.state.chainId ∧
    (cancelActivation c s).1.state.accounts = s.state.accounts ∧
    (cancelActivation c s).1.state.accountIndex = s.state.accountIndex ∧
    (cancelActivation c s).1.state.watchingAsset = s.state.watchingAsset := by
  simp [cancelActivation, h]

/-- Witness for C7 at a fully populated concrete state. -/
theorem C7_cancel_effective_frame_witness :
    (cancelActivation 1 ⟨1, sampleState⟩).1.state.activating = false ∧
    (cancelActivation 1 ⟨1, sampleState⟩).1.state.addingChain = none ∧
    (cancelActivation 1 ⟨1, sampleState⟩).1.state.switchingChain = none ∧
    (cancelActivation 1 ⟨1, sampleState⟩).1.state.chainId = sampleState.chainId ∧
    (cancelActivation 1 ⟨1, sampleState⟩).1.state.accounts = sampleState.accounts ∧
    (cancelActivation 1 ⟨1, sampleState⟩).1.state.accountIndex = sampleState.accountIndex ∧
    (cancelActivation 1 ⟨1, sampleState⟩).1.state.watchingAsset = sampleState.watchingAsset :=
  C7_cancel_effective_frame 1 ⟨1, sampleState⟩ rfl

/-- C1: stale cancellation is a no-op — after `startActivation`
captures its nullifier, if any generation-advancing operation runs
(another `startActivation`, a successful `update`, or `resetState`),
invoking the earlier cancel closure leaves the store unchanged and
returns the current state snapshot. -/
theorem C1_stale_cancel_noop (getAddress : String → Option String)
    (s t : Store)
    (h : AdvancingResult getAddress (startActivation s).1 t) :
    cancelActivation (startActivation s).2 t = (t, t.state) := by
  apply cancel_stale_noop
  rcases h with rfl | ⟨u, skip, st', hu⟩ | rfl
  · simp only [startActivation]
    omega
  · have h2 : (update getAddress u skip (startActivation s).1).2
        = Except.ok st' := by rw [hu]
    have h1 := (update_ok_spec getAddress u skip
      (startActivation s).1 st' h2).1
    rw [hu] at h1
    simp only at h1
    rw [h1]
    simp only [startActivation]
    omega
  · simp only [resetState, startActivation]
    omega

/-- Witness for C1: a `resetState` after the activation makes the
earlier cancel closure a no-op. -/
theorem C1_stale_cancel_noop_witness :
    cancelActivation (startActivation initialStore).2
        (resetState (startActivation initialStore).1).1
      = ((resetState (startActivation initialStore).1).1,
         (resetState (startActivation initialStore).1).1.state) :=
  C1_stale_cancel_noop (fun _ => none) initialStore
    (resetState (startActivation initialStore).1).1
    (Or.inr (Or.inr rfl))

/-- C8: from any state, `resetState` twice in a row returns the
identical all-default state both times and leaves the stored state
equal to that default; and after any `resetState`, the cancel closure
of any activation begun earlier in the execution is a no-op. -/
theorem C8_resetState_idempotent_cancel_noop
    (getAddress : String → Option String) (s0 s : Store)
    (hreach : Relation.ReflTransGen (Step getAddress)
      (startActivation s0).1 s) :
    ((resetState s).2 = DEFAULT_STATE ∧
     (resetState s).1.state = DEFAULT_STATE ∧
     (resetState (resetState s).1).2 = DEFAULT_STATE ∧
     (resetState (resetState s).1).1.state = DEFAULT_STATE) ∧
    cancelActivation (startActivation s0).2 (resetState s).1
      = ((resetState s).1, (resetState s).1.state) := by
  refine ⟨⟨rfl, rfl, rfl, rfl⟩, ?_⟩
  apply cancel_stale_noop
  have hmono := reaches_nullifier_mono getAddress _ _ hreach
  have h1 : (startActivation s0).1.nullifier = s0.nullifier + 1 := rfl
  rw [h1] at hmono
  show s.nullifier + 1 ≠ s0.nullifier + 1
  omega

/-- Witness for C8: reset immediately after the activation itself. -/
theorem C8_resetState_idempotent_cancel_noop_witness :
    (((resetState (startActivation initialStore).1).2 = DEFAULT_STATE ∧
      (resetState (startActivation initialStore).1).1.state = DEFAULT_STATE ∧
      (resetState (resetState (startActivation initialStore).1).1).2 = DEFAULT_STATE ∧
      (resetState (resetState (startActivation initialStore).1).1).1.state = DEFAULT_STATE) ∧
     cancelActivation (startActivation initialStore).2
         (resetState (startActivation initialStore).1).1
       = ((resetState (startActivation initialStore).1).1,
          (resetState (startActivation initialStore).1).1.state)) :=
  C8_resetState_idempotent_cancel_noop (fun _ => none) initialStore
    (startActivation initialStore).1 Relation.ReflTransGen.refl

/-- C2, counterexample: an update whose resulting `accounts` is a
defined but empty list does NOT leave `activating` true — starting
from an activating state, `update {chainId: 1, accounts: []}` flips
`activating` to false, because in the source's truthiness test an
array (even empty) is truthy. -/
theorem C2_counterexample :
    (update (fun a => some a)
        { emptyUpdate with chainId := some 1, accounts := some [] } false
        ⟨1, { DEFAULT_STATE with activating := true }⟩).1.state.activating
      = false := by
  decide

/-- C2, amended: for every prior state with `activating = true`, a
successful `update` leaves `activating = false` exactly when the
resulting `chainId` is defined and nonzero and the resulting
`accounts` is defined — non-emptiness is not required. -/
theorem C2_activating_gate (getAddress : String → Option String)
    (u : Web3ReactStateUpdate) (skip : Bool) (s : Store)
    (st' : Web3ReactState) (hact : s.state.activating = true)
    (h : (update getAddress u skip s).2 = Except.ok st') :
    st'.activating = false ↔
      truthyChainId st'.chainId = true ∧ st'.accounts.isSome = true := by
  obtain ⟨-, ca, -, rfl⟩ := update_ok_spec getAddress u skip s st' h
  rw [applyUpdate_activating, hact, ← truthyAccounts_isSome]
  cases htc : truthyChainId ((applyUpdate u ca s.state).chainId) <;>
    cases hta : truthyAccounts ((applyUpdate u ca s.state).accounts) <;>
      simp

/-- Witness for C2's amended theorem at a successful concrete update. -/
theorem C2_activating_gate_witness :
    ((⟨some 1, some ["a"], none, false, none, none, none⟩ :
        Web3ReactState).activating = false ↔
      truthyChainId (⟨some 1, some ["a"], none, false, none, none,
        none⟩ : Web3ReactState).chainId = true ∧
      (Web3ReactState.accounts
        ⟨some 1, some ["a"], none, false, none, none, none⟩).isSome = true) :=
  C2_activating_gate (fun a => some a)
    { emptyUpdate with chainId := some 1, accounts := some ["a"] } false
    ⟨0, { DEFAULT_STATE with activating := true }⟩
    ⟨some 1, some ["a"], none, false, none, none, none⟩ rfl (by rfl)

/-- C3: `update` with `chainId = MAX_SAFE_CHAIN_ID` succeeds for every
store, while any `chainId` that is non-integer, non-positive or above
`MAX_SAFE_CHAIN_ID` (with validation on) yields the `Invalid chainId`
error with the store unchanged. -/
theorem C3_chainId_bound_atomic (getAddress : String → Option String)
    (s : Store) (c : ℚ)
    (h : ¬(c.den = 1) ∨ c ≤ 0 ∨ MAX_SAFE_CHAIN_ID < c) :
    (∃ st', update getAddress
        { emptyUpdate with chainId := some MAX_SAFE_CHAIN_ID } false s
      = ((⟨s.nullifier + 1, st'⟩ : Store), Except.ok st')) ∧
    update getAddress { emptyUpdate with chainId := some c } false s
      = (s, Except.error "Invalid chainId") := by
  constructor
  · refine ⟨applyUpdate { emptyUpdate with chainId := some MAX_SAFE_CHAIN_ID }
      none s.state, ?_⟩
    have hok : checkChainId
        { emptyUpdate with chainId := some MAX_SAFE_CHAIN_ID } false
        = Except.ok () := by rfl
    unfold update
    rw [hok]
    rfl
  · have herr : checkChainId { emptyUpdate with chainId := some c } false
        = Except.error "Invalid chainId" := by
      show validateChainId c = Except.error "Invalid chainId"
      unfold validateChainId
      rw [if_pos h]
    unfold update
    rw [herr]

/-- Witness for C3 at the spec's boundary values 4503599627370477, 0
and -1, plus the succeeding bound itself. -/
theorem C3_chainId_bound_atomic_witness :
    (update (fun _ => none)
        { emptyUpdate with chainId := some 4503599627370477 } false
        initialStore = (initialStore, Except.error "Invalid chainId")) ∧
    (update (fun _ => none) { emptyUpdate with chainId := some 0 } false
        initialStore = (initialStore, Except.error "Invalid chainId")) ∧
    (update (fun _ => none) { emptyUpdate with chainId := some (-1) } false
        initialStore = (initialStore, Except.error "Invalid chainId")) ∧
    (∃ st', update (fun _ => none)
        { emptyUpdate with chainId := some MAX_SAFE_CHAIN_ID } false
        initialStore
      = ((⟨initialStore.nullifier + 1, st'⟩ : Store), Except.ok st')) :=
  ⟨(C3_chainId_bound_atomic (fun _ => none) initialStore 4503599627370477
      (Or.inr (Or.inr (by norm_num [MAX_SAFE_CHAIN_ID])))).2,
   (C3_chainId_bound_atomic (fun _ => none) initialStore 0
      (Or.inr (Or.inl (by norm_num)))).2,
   (C3_chainId_bound_atomic (fun _ => none) initialStore (-1)
      (Or.inr (Or.inl (by norm_num)))).2,
   (C3_chainId_bound_atomic (fun _ => none) initialStore 0
      (Or.inr (Or.inl (by norm_num)))).1⟩

/-- C4: for each of `accountIndex`, `addingChain`, `switchingChain`
and `watchingAsset`, a successful `update` whose patch names the field
with an explicit unset value clears it, while a patch from which the
field is entirely absent leaves the prior value unchanged. -/
theorem C4_explicit_clear_vs_absent (getAddress : String → Option String)
    (u : Web3ReactStateUpdate) (skip : Bool) (s : Store)
    (st' : Web3ReactState)
    (h : (update getAddress u skip s).2 = Except.ok st') :
    ((u.accountIndex = some none → st'.accountIndex = none) ∧
     (u.accountIndex = none → st'.accountIndex = s.state.accountIndex)) ∧
    ((u.addingChain = some none → st'.addingChain = none) ∧
     (u.addingChain = none → st'.addingChain = s.state.addingChain)) ∧
    ((u.switchingChain = some none → st'.switchingChain = none) ∧
     (u.switchingChain = none → st'.switchingChain = s.state.switchingChain)) ∧
    ((u.watchingAsset = some none → st'.watchingAsset = none) ∧
     (u.watchingAsset = none → st'.watchingAsset = s.state.watchingAsset)) := by
  obtain ⟨-, ca, -, rfl⟩ := update_ok_spec getAddress u skip s st' h
  refine ⟨⟨?_, ?_⟩, ⟨?_, ?_⟩, ⟨?_, ?_⟩, ⟨?_, ?_⟩⟩ <;>
    intro hu <;> simp [applyUpdate, hu]

/-- Witness for C4: a patch explicitly clearing `accountIndex` against
a fully populated state. -/
theorem C4_explicit_clear_vs_absent_witness :
    ((({ emptyUpdate with accountIndex := some none } :
          Web3ReactStateUpdate).accountIndex = some none →
        (⟨some 5, some ["0xA"], none, false, some 2, some 3, some 4⟩ :
          Web3ReactState).accountIndex = none) ∧
     (({ emptyUpdate with accountIndex := some none } :
          Web3ReactStateUpdate).accountIndex = none →
        (⟨some 5, some ["0xA"], none, false, some 2, some 3, some 4⟩ :
          Web3ReactState).accountIndex
          = (⟨0, sampleState⟩ : Store).state.accountIndex)) ∧
    ((({ emptyUpdate with accountIndex := some none } :
          Web3ReactStateUpdate).addingChain = some none →
        (⟨some 5, some ["0xA"], none, false, some 2, some 3, some 4⟩ :
          Web3ReactState).addingChain = none) ∧
     (({ emptyUpdate with accountIndex := some none } :
          Web3ReactStateUpdate).addingChain = none →
        (⟨some 5, some ["0xA"], none, false, some 2, some 3, some 4⟩ :
          Web3ReactState).addingChain
          = (⟨0, sampleState⟩ : Store).state.addingChain)) ∧
    ((({ emptyUpdate with accountIndex := some none } :
          Web3ReactStateUpdate).switchingChain = some none →
        (⟨some 5, some ["0xA"], none, false, some 2, some 3, some 4⟩ :
          Web3ReactState).switchingChain = none) ∧
     (({ emptyUpdate with accountIndex := some none } :
          Web3ReactStateUpdate).switchingChain = none →
        (⟨some 5, some ["0xA"], none, false, some 2, some 3, some 4⟩ :
          Web3ReactState).switchingChain
          = (⟨0, sampleState⟩ : Store).state.switchingChain)) ∧
    ((({ emptyUpdate with accountIndex := some none } :
          Web3ReactStateUpdate).watchingAsset = some none →
        (⟨some 5, some ["0xA"], none, false, some 2, some 3, some 4⟩ :
          Web3ReactState).watchingAsset = none) ∧
     (({ emptyUpdate with accountIndex := some none } :
          Web3ReactStateUpdate).watchingAsset = none →
        (⟨some 5, some ["0xA"], none, false, some 2, some 3, some 4⟩ :
          Web3ReactState).watchingAsset
          = (⟨0, sampleState⟩ : Store).state.watchingAsset)) :=
  C4_explicit_clear_vs_absent (fun _ => none)
    { emptyUpdate with accountIndex := some none } false ⟨0, sampleState⟩
    ⟨some 5, some ["0xA"], none, false, some 2, some 3, some 4⟩ (by rfl)

/-- C6: under validation, every address a successful `update` stores in
`accounts` is `getAddress` (the external checksum normalizer) applied
to the corresponding supplied address; and if any address of the batch
fails `getAddress`, the call errors with the store unchanged, even when
other addresses in the batch are valid. -/
theorem C6_address_normalization (getAddress : String → Option String)
    (u : Web3ReactStateUpdate) (s : Store) (l : List String)
    (hacc : u.accounts = some l) :
    (∀ st', (update getAddress u false s).2 = Except.ok st' →
      ∃ l', st'.accounts = some l' ∧
        List.Forall₂ (fun a a' => getAddress a = some a') l l') ∧
    (∀ a, a ∈ l → getAddress a = none →
      ∃ e, update getAddress u false s = (s, Except.error e)) := by
  constructor
  · intro st' h
    obtain ⟨-, ca, hca, rfl⟩ := update_ok_spec getAddress u false s st' h
    unfold checkAccounts at hca
    rw [hacc] at hca
    simp only [Bool.false_eq_true, if_false] at hca
    cases hval : validateAccounts getAddress l with
    | none => rw [hval] at hca; cases hca
    | some l' =>
      rw [hval, Option.map_some'] at hca
      cases hca
      exact ⟨l', rfl, validateAccounts_forall₂ getAddress l l' hval⟩
  · intro a ha hga
    have hval := validateAccounts_none getAddress l a ha hga
    unfold update
    cases h1 : checkChainId u false with
    | error e => exact ⟨e, rfl⟩
    | ok _ =>
      have h2 : checkAccounts getAddress u false = none := by
        unfold checkAccounts
        rw [hacc]
        simp [hval]
      rw [h2]
      exact ⟨"Invalid account", rfl⟩

/-- Witness for C6 with a mixed-casing batch and a concrete
normalizer. -/
theorem C6_address_normalization_witness :
    ((∀ st', (update
        (fun a => if a = "0xabc" then some "0xABC" else none)
        { emptyUpdate with accounts := some ["0xabc"] } false
        initialStore).2 = Except.ok st' →
      ∃ l', st'.accounts = some l' ∧
        List.Forall₂
          (fun a a' =>
            (fun a => if a = "0xabc" then some "0xABC" else none) a
              = some a')
          ["0xabc"] l') ∧
    (∀ a, a ∈ ["0xabc"] →
      (fun a => if a = "0xabc" then some "0xABC" else none) a = none →
      ∃ e, update (fun a => if a = "0xabc" then some "0xABC" else none)
        { emptyUpdate with accounts := some ["0xabc"] } false initialStore
        = (initialStore, Except.error e))) :=
  C6_address_normalization
    (fun a => if a = "0xabc" then some "0xABC" else none)
    { emptyUpdate with accounts := some ["0xabc"] } initialStore
    ["0xabc"] rfl

/-- C9: an `update` that fails validation does not advance the
nullifier, so the cancel closure of the most recent `startActivation`
remains effective — running it after the failed update behaves exactly
as if the failed update had never been attempted, and in particular
still sets `activating` to false. -/
theorem C9_failed_update_preserves_cancel
    (getAddress : String → Option String) (u : Web3ReactStateUpdate)
    (skip : Bool) (s0 : Store) (e : String)
    (h : (update getAddress u skip (startActivation s0).1).2
      = Except.error e) :
    cancelActivation (startActivation s0).2
        (update getAddress u skip (startActivation s0).1).1
      = cancelActivation (startActivation s0).2 (startActivation s0).1 ∧
    (cancelActivation (startActivation s0).2
        (update getAddress u skip (startActivation s0).1).1).1.state.activating
      = false := by
  have hfst := update_error_fst getAddress u skip (startActivation s0).1 e h
  rw [hfst]
  exact ⟨rfl, by simp [cancelActivation, startActivation]⟩

/-- Witness for C9: an invalid `chainId: 0` update between activation
and cancellation. -/
theorem C9_failed_update_preserves_cancel_witness :
    cancelActivation (startActivation initialStore).2
        (update (fun _ => none) { emptyUpdate with chainId := some 0 }
          false (startActivation initialStore).1).1
      = cancelActivation (startActivation initialStore).2
          (startActivation initialStore).1 ∧
    (cancelActivation (startActivation initialStore).2
        (update (fun _ => none) { emptyUpdate with chainId := some 0 }
          false (startActivation initialStore).1).1).1.state.activating
      = false :=
  C9_failed_update_preserves_cancel (fun _ => none)
    { emptyUpdate with chainId := some 0 } false initialStore
    "Invalid chainId" (by rfl)

/-- C10: `update` can never clear `chainId` or `accounts` — whether it
errors or succeeds, a defined `chainId` (respectively `accounts`)
stays defined; only `startActivation` and `resetState` return those
fields to unset. -/
theorem C10_update_never_clears (getAddress : String → Option String)
    (u : Web3ReactStateUpdate) (skip : Bool) (s : Store) :
    ((s.state.chainId.isSome = true →
        (update getAddress u skip s).1.state.chainId.isSome = true) ∧
     (s.state.accounts.isSome = true →
        (update getAddress u skip s).1.state.accounts.isSome = true)) ∧
    ((startActivation s).1.state.chainId = none ∧
     (startActivation s).1.state.accounts = none ∧
     (resetState s).1.state.chainId = none ∧
     (resetState s).1.state.accounts = none) := by
  refine ⟨?_, rfl, rfl, rfl, rfl⟩
  cases h : (update getAddress u skip s).2 with
  | error e =>
    rw [update_error_fst getAddress u skip s e h]
    exact ⟨id, id⟩
  | ok st' =>
    obtain ⟨hfst, ca, -, hst⟩ := update_ok_spec getAddress u skip s st' h
    rw [hfst]
    subst hst
    constructor
    · intro hs
      cases hc : u.chainId <;> simp [applyUpdate, Option.orElse, hc, hs]
    · intro hs
      cases hc : ca <;> simp [applyUpdate, Option.orElse, hc, hs]

/-- Witness for C10 at a fully populated state and a patch naming both
fields. -/
theorem C10_update_never_clears_witness :
    (((⟨0, sampleState⟩ : Store).state.chainId.isSome = true →
        (update (fun a => some a)
          { emptyUpdate with chainId := some 7, accounts := some [] } true
          ⟨0, sampleState⟩).1.state.chainId.isSome = true) ∧
     ((⟨0, sampleState⟩ : Store).state.accounts.isSome = true →
        (update (fun a => some a)
          { emptyUpdate with chainId := some 7, accounts := some [] } true
          ⟨0, sampleState⟩).1.state.accounts.isSome = true)) ∧
    ((startActivation ⟨0, sampleState⟩).1.state.chainId = none ∧
     (startActivation ⟨0, sampleState⟩).1.state.accounts = none ∧
     (resetState ⟨0, sampleState⟩).1.state.chainId = none ∧
     (resetState ⟨0, sampleState⟩).1.state.accounts = none) :=
  C10_update_never_clears (fun a => some a)
    { emptyUpdate with chainId := some 7, accounts := some [] } true
    ⟨0, sampleState⟩

end Web3React
